import Mathlib

/-!
Verification of the Github Heroes presentation-layer widgets
(`src/ui/widgets/recycler_dialog.py`, `src/ui/widgets/player_view.py`,
`src/ui/widgets/combat_dialog.py`) against the repository specification.

The widgets are shallowly embedded: each event handler becomes a pure
function from its inputs (current player, inventory, combat-turn outcome,
settings) to the observable effects it performs — the sequence of calls
into `game.logic` / `data.repositories`, the awarded XP, the message text,
and the UI events it emits. The repository and rules-engine functions the
widgets call are not part of the excerpt, so they appear only as opaque
entries in the call trace, exactly as the widgets treat them.
-/

/-- `data.models.Player` as used by the widgets: identity plus the five
persisted base stats. -/
structure Player where
  id : Nat
  name : String
  level : Nat
  xp : Int
  hp : Int
  attack : Int
  defense : Int
  speed : Int
  luck : Int
  github_handle : String
deriving Repr, DecidableEq

/-- `data.models.Enemy` as used by `CombatDialog`. -/
structure Enemy where
  name : String
  level : Nat
  hp : Int
  attack : Int
  defense : Int
deriving Repr, DecidableEq

/-- `data.models.Item` as used by the widgets: `get_stat_bonuses()` is the
item's stat-bonus mapping, embedded as an association list. -/
structure Item where
  id : Nat
  name : String
  rarity : String
  stat_bonuses : List (String × Int)
deriving Repr, DecidableEq

/-- One row of `ItemRepository.get_player_inventory`: `(item, quantity, equipped)`. -/
abbrev InventoryEntry := Item × Nat × Bool

/-- A player inventory as returned by `ItemRepository.get_player_inventory`. -/
abbrev Inventory := List InventoryEntry

/-- A call from a widget into `game.logic` or `data.repositories`, recorded
in the order the handler performs it. -/
inductive GameCall where
  | getById (itemId : Nat)
  | removeFromInventory (playerId itemId qty : Nat)
  | awardXp (playerId : Nat) (xp : Nat)
  | playerUpdate (playerId : Nat)
  | equipItem (playerId itemId : Nat)
  | unequipItem (playerId itemId : Nat)
  | combatTurn (action : String)
  | handleVictory
  | handleDefeat
  | getInventoryCount (playerId : Nat)
  | calculateInventorySpace (level : Nat)
deriving Repr, DecidableEq

/-- Whether a recorded call mutates game state (reads such as
`ItemRepository.get_by_id` do not). -/
def GameCall.isMutation : GameCall → Bool
  | .getById _ => false
  | .removeFromInventory _ _ _ => true
  | .awardXp _ _ => true
  | .playerUpdate _ => true
  | .equipItem _ _ => true
  | .unequipItem _ _ => true
  | .combatTurn _ => true
  | .handleVictory => true
  | .handleDefeat => true
  | .getInventoryCount _ => false
  | .calculateInventorySpace _ => false

namespace RecyclerDialog

/-- The static `rarity_xp` dict literal in `RecyclerDialog.sell_item`. -/
def rarity_xp : List (String × Nat) :=
  [("common", 5), ("uncommon", 10), ("rare", 25), ("epic", 50), ("legendary", 100)]

/-- `rarity_xp.get(rarity, 5)`: dict lookup with default 5. -/
def rarityXpValue (rarity : String) : Nat :=
  match rarity_xp.find? (fun p => p.1 == rarity) with
  | some p => p.2
  | none => 5

/-- The observable effects of one `RecyclerDialog.sell_item` invocation. -/
structure SellResult where
  calls : List GameCall
  xpAwarded : Option Nat
  message : Option String
  refreshed : Bool
deriving Repr, DecidableEq

/-- `RecyclerDialog.sell_item(item_id, quantity)`. `currentPlayer` is
`get_game_state().current_player`; `lookup` is `ItemRepository.get_by_id`. -/
def sell_item (currentPlayer : Option Player) (lookup : Nat → Option Item)
    (item_id quantity : Nat) : SellResult :=
  match currentPlayer with
  | none => ⟨[], none, none, false⟩
  | some player =>
    match lookup item_id with
    | none => ⟨[GameCall.getById item_id], none, none, false⟩
    | some item =>
      let xp_reward := rarityXpValue item.rarity * quantity
      { calls := [GameCall.getById item_id,
                  GameCall.removeFromInventory player.id item_id quantity,
                  GameCall.awardXp player.id xp_reward,
                  GameCall.playerUpdate player.id],
        xpAwarded := some xp_reward,
        message := some ("Sold " ++ toString quantity ++ "x " ++ item.name
                          ++ " for " ++ toString xp_reward ++ " XP!"),
        refreshed := true }

end RecyclerDialog

/-- C1: for rarities in the table and quantity `n ≥ 1`, `sell_item` awards
exactly `n * rarity_table[rarity]` XP, with the table mapping common to 5,
uncommon to 10, rare to 25, epic to 50 and legendary to 100; the same
amount is passed to `award_xp` and appears in the confirmation message. -/
theorem C1_sell_item_xp (p : Player) (item : Item) (lookup : Nat → Option Item)
    (item_id n : Nat)
    (hrar : item.rarity ∈ ["common", "uncommon", "rare", "epic", "legendary"])
    (hn : 1 ≤ n) (hlook : lookup item_id = some item) :
    RecyclerDialog.rarityXpValue "common" = 5 ∧
    RecyclerDialog.rarityXpValue "uncommon" = 10 ∧
    RecyclerDialog.rarityXpValue "rare" = 25 ∧
    RecyclerDialog.rarityXpValue "epic" = 50 ∧
    RecyclerDialog.rarityXpValue "legendary" = 100 ∧
    (RecyclerDialog.sell_item (some p) lookup item_id n).xpAwarded
      = some (n * RecyclerDialog.rarityXpValue item.rarity) ∧
    GameCall.awardXp p.id (n * RecyclerDialog.rarityXpValue item.rarity)
      ∈ (RecyclerDialog.sell_item (some p) lookup item_id n).calls ∧
    (RecyclerDialog.sell_item (some p) lookup item_id n).message
      = some ("Sold " ++ toString n ++ "x " ++ item.name ++ " for "
               ++ toString (n * RecyclerDialog.rarityXpValue item.rarity) ++ " XP!") := by
  refine ⟨rfl, rfl, rfl, rfl, rfl, ?_, ?_, ?_⟩ <;>
    simp [RecyclerDialog.sell_item, hlook, Nat.mul_comm]

/-- A sample item and lookup used to evaluate the handlers on concrete
inputs. -/
def sampleItem : Item :=
  ⟨7, "Rusty Sword", "rare", [("attack", 3), ("luck", 1)]⟩

/-- A sample player used to evaluate the handlers on concrete inputs. -/
def samplePlayer : Player :=
  ⟨1, "Octo", 3, 250, 40, 12, 8, 6, 4, "octo"⟩

/-- A sample `ItemRepository.get_by_id`: resolves id 7 to `sampleItem`. -/
def sampleLookup : Nat → Option Item :=
  fun i => if i = 7 then some sampleItem else none

/-- Witness for C1: selling 4 of a rare item awards 100 XP. -/
theorem C1_sell_item_xp_witness :
    (RecyclerDialog.sell_item (some samplePlayer) sampleLookup 7 4).xpAwarded
      = some (4 * RecyclerDialog.rarityXpValue "rare") :=
  (C1_sell_item_xp samplePlayer sampleItem sampleLookup 7 4
    (by decide) (by decide) (by decide)).2.2.2.2.2.1

/-- C8: an item whose rarity is outside the table falls back to the common
value and awards 5 XP per unit sold, rather than failing or awarding
nothing. -/
theorem C8_unknown_rarity_fallback (p : Player) (item : Item)
    (lookup : Nat → Option Item) (item_id n : Nat)
    (hrar : item.rarity ∉ ["common", "uncommon", "rare", "epic", "legendary"])
    (hlook : lookup item_id = some item) :
    (RecyclerDialog.sell_item (some p) lookup item_id n).xpAwarded = some (5 * n) := by
  simp only [List.mem_cons, List.not_mem_nil, or_false, not_or] at hrar
  obtain ⟨h1, h2, h3, h4, h5⟩ := hrar
  have b1 : ("common" == item.rarity) = false := beq_eq_false_iff_ne.mpr fun h => h1 h.symm
  have b2 : ("uncommon" == item.rarity) = false := beq_eq_false_iff_ne.mpr fun h => h2 h.symm
  have b3 : ("rare" == item.rarity) = false := beq_eq_false_iff_ne.mpr fun h => h3 h.symm
  have b4 : ("epic" == item.rarity) = false := beq_eq_false_iff_ne.mpr fun h => h4 h.symm
  have b5 : ("legendary" == item.rarity) = false := beq_eq_false_iff_ne.mpr fun h => h5 h.symm
  simp [RecyclerDialog.sell_item, hlook, RecyclerDialog.rarityXpValue,
    RecyclerDialog.rarity_xp, List.find?, b1, b2, b3, b4, b5, Nat.mul_comm]

/-- A sample item with a rarity string outside the table. -/
def mythicItem : Item := ⟨9, "Comet Shard", "mythic", [("hp", 2)]⟩

/-- A sample lookup resolving id 9 to the mythic item. -/
def mythicLookup : Nat → Option Item :=
  fun i => if i = 9 then some mythicItem else none

/-- Witness for C8: selling 3 of a "mythic" item awards 15 XP. -/
theorem C8_unknown_rarity_fallback_witness :
    (RecyclerDialog.sell_item (some samplePlayer) mythicLookup 9 3).xpAwarded
      = some (5 * 3) :=
  C8_unknown_rarity_fallback samplePlayer mythicItem mythicLookup 9 3
    (by decide) (by decide)

namespace PlayerView

/-- One step of the bonus-aggregation loop body shared by
`PlayerView.refresh` and `CombatDialog.__init__`: add `bonus` to the
accumulator entry for `stat` when `stat` is one of the five tracked keys,
otherwise leave the accumulator unchanged
(`if stat in equipped_bonuses: equipped_bonuses[stat] += bonus`). -/
structure StatBonuses where
  hp : Int
  attack : Int
  defense : Int
  speed : Int
  luck : Int
deriving Repr, DecidableEq

/-- The dict update `equipped_bonuses[stat] += bonus`, guarded by
`if stat in equipped_bonuses`. -/
def addStatBonus (b : StatBonuses) (stat : String) (bonus : Int) : StatBonuses :=
  if stat = "hp" then ⟨b.hp + bonus, b.attack, b.defense, b.speed, b.luck⟩
  else if stat = "attack" then ⟨b.hp, b.attack + bonus, b.defense, b.speed, b.luck⟩
  else if stat = "defense" then ⟨b.hp, b.attack, b.defense + bonus, b.speed, b.luck⟩
  else if stat = "speed" then ⟨b.hp, b.attack, b.defense, b.speed + bonus, b.luck⟩
  else if stat = "luck" then ⟨b.hp, b.attack, b.defense, b.speed, b.luck + bonus⟩
  else b

/-- The inner loop `for stat, bonus in bonuses.items(): ...` over one
item's `get_stat_bonuses()`. -/
def accumItemBonuses (b : StatBonuses) (item : Item) : StatBonuses :=
  item.stat_bonuses.foldl (fun acc p => addStatBonus acc p.1 p.2) b

/-- The outer loop `for item, quantity, equipped in inventory: if equipped: ...`
starting from the all-zero dict. This aggregation appears verbatim in
`PlayerView.refresh` and again in `CombatDialog.__init__`. -/
def equipped_bonuses (inv : Inventory) : StatBonuses :=
  inv.foldl (fun acc e => if e.2.2 then accumItemBonuses acc e.1 else acc)
    ⟨0, 0, 0, 0, 0⟩

/-- The five displayed stat totals computed at the end of
`PlayerView.refresh`: `total_x = base_x + equipped_bonuses[x]`. -/
structure DisplayedStats where
  hp : Int
  attack : Int
  defense : Int
  speed : Int
  luck : Int
deriving Repr, DecidableEq

/-- The stat lines rendered by `PlayerView.refresh` for a present player. -/
def refresh_stats (player : Player) (inv : Inventory) : DisplayedStats :=
  let b := equipped_bonuses inv
  ⟨player.hp + b.hp, player.attack + b.attack, player.defense + b.defense,
   player.speed + b.speed, player.luck + b.luck⟩

end PlayerView

/-- Specification-side sum: the total of the values attached to `stat` in
one item's bonus mapping. -/
def statSumIn (stat : String) (l : List (String × Int)) : Int :=
  ((l.filter (fun p => p.1 == stat)).map (fun p => p.2)).sum

/-- Specification-side sum: the spec's "sum of that stat's bonuses over
exactly the inventory entries whose equipped flag is true"; quantity does
not appear. -/
def specStatSum (stat : String) (inv : Inventory) : Int :=
  ((inv.filter (fun e => e.2.2)).map (fun e => statSumIn stat e.1.stat_bonuses)).sum

namespace PlayerView

theorem addStatBonus_eq (b : StatBonuses) (s : String) (v : Int) :
    addStatBonus b s v =
      ⟨b.hp + (if (s == "hp") = true then v else 0),
       b.attack + (if (s == "attack") = true then v else 0),
       b.defense + (if (s == "defense") = true then v else 0),
       b.speed + (if (s == "speed") = true then v else 0),
       b.luck + (if (s == "luck") = true then v else 0)⟩ := by
  unfold addStatBonus
  split_ifs with h1 h2 h3 h4 h5 <;> subst_vars <;> simp_all

theorem foldl_addStatBonus (l : List (String × Int)) (b : StatBonuses) :
    l.foldl (fun acc p => addStatBonus acc p.1 p.2) b =
      ⟨b.hp + statSumIn "hp" l, b.attack + statSumIn "attack" l,
       b.defense + statSumIn "defense" l, b.speed + statSumIn "speed" l,
       b.luck + statSumIn "luck" l⟩ := by
  induction l generalizing b with
  | nil => simp [statSumIn]
  | cons hd tl ih =>
    have hstep : ∀ stat : String,
        statSumIn stat (hd :: tl) =
          (if (hd.1 == stat) = true then hd.2 else 0) + statSumIn stat tl := by
      intro stat
      by_cases h : (hd.1 == stat) = true <;>
        simp [statSumIn, List.filter_cons, h]
    simp only [List.foldl_cons]
    rw [ih, addStatBonus_eq]
    simp [hstep, add_assoc]

theorem accumItemBonuses_eq (b : StatBonuses) (item : Item) :
    accumItemBonuses b item =
      ⟨b.hp + statSumIn "hp" item.stat_bonuses,
       b.attack + statSumIn "attack" item.stat_bonuses,
       b.defense + statSumIn "defense" item.stat_bonuses,
       b.speed + statSumIn "speed" item.stat_bonuses,
       b.luck + statSumIn "luck" item.stat_bonuses⟩ :=
  foldl_addStatBonus item.stat_bonuses b

theorem foldl_equipped (inv : Inventory) (b : StatBonuses) :
    inv.foldl (fun acc e => if e.2.2 then accumItemBonuses acc e.1 else acc) b =
      ⟨b.hp + specStatSum "hp" inv, b.attack + specStatSum "attack" inv,
       b.defense + specStatSum "defense" inv, b.speed + specStatSum "speed" inv,
       b.luck + specStatSum "luck" inv⟩ := by
  induction inv generalizing b with
  | nil => simp [specStatSum]
  | cons hd tl ih =>
    simp only [List.foldl_cons]
    by_cases he : hd.2.2
    · rw [if_pos he, ih, accumItemBonuses_eq]
      simp [specStatSum, List.filter_cons, he, add_assoc]
    · rw [if_neg he, ih]
      simp [specStatSum, List.filter_cons, he]

theorem equipped_bonuses_eq (inv : Inventory) :
    equipped_bonuses inv =
      ⟨specStatSum "hp" inv, specStatSum "attack" inv, specStatSum "defense" inv,
       specStatSum "speed" inv, specStatSum "luck" inv⟩ := by
  unfold equipped_bonuses
  rw [foldl_equipped]
  simp

end PlayerView

/-- Effects of `PlayerView.equip_item` / `PlayerView.unequip_item`. -/
structure EquipResult where
  calls : List GameCall
  refreshed : Bool
deriving Repr, DecidableEq

namespace PlayerView

/-- `PlayerView.equip_item(item_id)`: early return on a missing player,
otherwise one `ItemRepository.equip_item` call followed by a refresh. -/
def equip_item (currentPlayer : Option Player) (item_id : Nat) : EquipResult :=
  match currentPlayer with
  | none => ⟨[], false⟩
  | some player => ⟨[GameCall.equipItem player.id item_id], true⟩

/-- `PlayerView.unequip_item(item_id)`: early return on a missing player,
otherwise one `ItemRepository.unequip_item` call followed by a refresh. -/
def unequip_item (currentPlayer : Option Player) (item_id : Nat) : EquipResult :=
  match currentPlayer with
  | none => ⟨[], false⟩
  | some player => ⟨[GameCall.unequipItem player.id item_id], true⟩

end PlayerView

namespace CombatDialog

/-- The transient combat player built in `CombatDialog.__init__`: the
persisted player with each stat increased by the aggregated equipped
bonuses. -/
def combat_player_of (player : Player) (inv : Inventory) : Player :=
  let b := PlayerView.equipped_bonuses inv
  ⟨player.id, player.name, player.level, player.xp,
   player.hp + b.hp, player.attack + b.attack, player.defense + b.defense,
   player.speed + b.speed, player.luck + b.luck, player.github_handle⟩

/-- What `CombatDialog.update_display` pushes to one HP widget group:
progress-bar maximum, progress-bar value, and the HP number in the stats
label. -/
structure HpDisplay where
  barMax : Int
  barValue : Int
  shownHp : Int
deriving Repr, DecidableEq

/-- The clamping applied to an HP value by `update_display`:
`setMaximum(max(hp, 1))`, `setValue(max(hp, 0))`, and the label text shows
`max(hp, 0)`. -/
def hp_display (hp : Int) : HpDisplay :=
  ⟨max hp 1, max hp 0, max hp 0⟩

/-- `CombatDialog.update_display`: the enemy group rendered from
`self.enemy.hp` and the player group from `self.combat_player.hp`. -/
def update_display (combat_player : Player) (enemy : Enemy) : HpDisplay × HpDisplay :=
  (hp_display enemy.hp, hp_display combat_player.hp)

/-- The triple returned by `game.logic.combat_turn`. -/
structure TurnOutcome where
  message : String
  continues : Bool
  result : String
deriving Repr, DecidableEq

/-- A UI event emitted by `execute_action` while revealing the turn. -/
inductive UiEvent where
  | appendLog (msg : String)
  | updateDisplayNow
  | singleShot (ms : Int)
deriving Repr, DecidableEq

/-- The log/display portion of `execute_action`: `speed_delay` is
`int(db.get_setting("combat_text_speed", "0"))`; when it is positive the
message is appended and `update_display` is deferred through
`QTimer.singleShot(speed_delay, ...)`, otherwise both happen at once. -/
def execute_action_events (speed_delay : Int) (outcome : TurnOutcome) : List UiEvent :=
  if speed_delay > 0 then
    [UiEvent.appendLog outcome.message, UiEvent.singleShot speed_delay]
  else
    [UiEvent.appendLog outcome.message, UiEvent.updateDisplayNow]

/-- The HP write-back performed when combat ends in victory or defeat:
`self.player.hp = max(1, self.combat_player.hp - self.equipped_bonuses["hp"])`.
All other fields of `self.player` are left as they were. -/
def combat_writeback (player combat_player : Player) (hpBonus : Int) : Player :=
  ⟨player.id, player.name, player.level, player.xp,
   max 1 (combat_player.hp - hpBonus),
   player.attack, player.defense, player.speed, player.luck,
   player.github_handle⟩

/-- The calls `execute_action` makes into `game.logic` /
`data.repositories`, in order: `combat_turn` always; on victory
`handle_victory` then `PlayerRepository.update`, plus the inventory-full
check (`get_inventory_count`, `calculate_inventory_space`) when no loot was
returned; on defeat `handle_defeat` then `PlayerRepository.update`; on
fled, nothing further. -/
def execute_action_calls (player : Player) (action : String)
    (outcome : TurnOutcome) (lootIsNone : Bool) : List GameCall :=
  GameCall.combatTurn action ::
    (if outcome.continues then []
     else if outcome.result = "victory" then
       [GameCall.handleVictory, GameCall.playerUpdate player.id] ++
         (if lootIsNone then
            [GameCall.getInventoryCount player.id,
             GameCall.calculateInventorySpace player.level]
          else [])
     else if outcome.result = "defeat" then
       [GameCall.handleDefeat, GameCall.playerUpdate player.id]
     else [])

end CombatDialog

/-- C2: every stat shown by `PlayerView.refresh` and every stat of the
transient combat player equals the persisted base value plus the sum of
that stat's bonuses over exactly the equipped inventory entries; quantity
never multiplies a bonus and unequipped entries contribute nothing. -/
theorem C2_stats_base_plus_equipped (p : Player) (inv : Inventory) :
    (PlayerView.refresh_stats p inv).hp = p.hp + specStatSum "hp" inv ∧
    (PlayerView.refresh_stats p inv).attack = p.attack + specStatSum "attack" inv ∧
    (PlayerView.refresh_stats p inv).defense = p.defense + specStatSum "defense" inv ∧
    (PlayerView.refresh_stats p inv).speed = p.speed + specStatSum "speed" inv ∧
    (PlayerView.refresh_stats p inv).luck = p.luck + specStatSum "luck" inv ∧
    (CombatDialog.combat_player_of p inv).hp = p.hp + specStatSum "hp" inv ∧
    (CombatDialog.combat_player_of p inv).attack = p.attack + specStatSum "attack" inv ∧
    (CombatDialog.combat_player_of p inv).defense = p.defense + specStatSum "defense" inv ∧
    (CombatDialog.combat_player_of p inv).speed = p.speed + specStatSum "speed" inv ∧
    (CombatDialog.combat_player_of p inv).luck = p.luck + specStatSum "luck" inv := by
  refine ⟨?_, ?_, ?_, ?_, ?_, ?_, ?_, ?_, ?_, ?_⟩ <;>
    simp [PlayerView.refresh_stats, CombatDialog.combat_player_of,
      PlayerView.equipped_bonuses_eq]

/-- C5: `update_display` clamps every HP it renders — the displayed number
and the bar value are `max(hp, 0)` and the bar maximum is `max(hp, 1)`, so
the rendered HP is never negative and the bar maximum is never below 1,
for the enemy and the combat player alike. -/
theorem C5_update_display_clamps (cp : Player) (e : Enemy) :
    (CombatDialog.update_display cp e).1.barMax = max e.hp 1 ∧
    (CombatDialog.update_display cp e).1.barValue = max e.hp 0 ∧
    (CombatDialog.update_display cp e).1.shownHp = max e.hp 0 ∧
    (CombatDialog.update_display cp e).2.barMax = max cp.hp 1 ∧
    (CombatDialog.update_display cp e).2.barValue = max cp.hp 0 ∧
    (CombatDialog.update_display cp e).2.shownHp = max cp.hp 0 ∧
    0 ≤ (CombatDialog.update_display cp e).1.shownHp ∧
    1 ≤ (CombatDialog.update_display cp e).1.barMax ∧
    0 ≤ (CombatDialog.update_display cp e).2.shownHp ∧
    1 ≤ (CombatDialog.update_display cp e).2.barMax := by
  refine ⟨rfl, rfl, rfl, rfl, rfl, rfl, ?_, ?_, ?_, ?_⟩ <;>
    simp [CombatDialog.update_display, CombatDialog.hp_display]

/-- C7: the single-shot timer staggers the combat-log reveal — with
`combat_text_speed > 0` the turn message is appended at once and the stat
display update is deferred by one `QTimer.singleShot` of that many
milliseconds; with the setting at its default 0 the append and the update
both happen immediately, in that order. -/
theorem C7_combat_text_timer (d : Int) (o : CombatDialog.TurnOutcome) :
    (0 < d → CombatDialog.execute_action_events d o =
      [CombatDialog.UiEvent.appendLog o.message, CombatDialog.UiEvent.singleShot d]) ∧
    (d = 0 → CombatDialog.execute_action_events d o =
      [CombatDialog.UiEvent.appendLog o.message, CombatDialog.UiEvent.updateDisplayNow]) := by
  constructor
  · intro h
    simp [CombatDialog.execute_action_events, h]
  · intro h
    subst h
    simp [CombatDialog.execute_action_events]

/-- Witness for C7 at delay 30 and at the default 0. -/
theorem C7_combat_text_timer_witness :
    CombatDialog.execute_action_events 30 ⟨"You attack!", true, ""⟩ =
      [CombatDialog.UiEvent.appendLog "You attack!", CombatDialog.UiEvent.singleShot 30] ∧
    CombatDialog.execute_action_events 0 ⟨"You attack!", true, ""⟩ =
      [CombatDialog.UiEvent.appendLog "You attack!", CombatDialog.UiEvent.updateDisplayNow] :=
  ⟨(C7_combat_text_timer 30 ⟨"You attack!", true, ""⟩).1 (by decide),
   (C7_combat_text_timer 0 ⟨"You attack!", true, ""⟩).2 rfl⟩

/-- C9: the end-of-combat write-back clamps the persisted HP at 1, so no
matter how negative the combat player's HP went, the stored player never
has hp ≤ 0. -/
theorem C9_persisted_hp_at_least_one (p cp : Player) (b : Int) :
    1 ≤ (CombatDialog.combat_writeback p cp b).hp := by
  simp [CombatDialog.combat_writeback]

/-- A combat player whose HP went negative during the battle. -/
def defeatedCombatPlayer : Player :=
  ⟨1, "Octo", 3, 250, -5, 12, 8, 6, 4, "octo"⟩

/-- Counterexample to C3 as stated: with combat HP −5 and equipped HP bonus
0, the write-back stores hp 1, not −5 − 0. -/
theorem C3_counterexample :
    (CombatDialog.combat_writeback samplePlayer defeatedCombatPlayer 0).hp ≠
      defeatedCombatPlayer.hp - 0 := by decide

/-- C3 (amended): the write-back stores `max(1, combat hp − equipped hp
bonus)` — the constructor-time bonus is subtracted back out, clamped below
at 1 — and every other field of the persisted record (the attack, defense,
speed and luck base values included) is taken from the base player, never
from the bonus-augmented combat player. -/
theorem C3_no_bonus_in_persisted_stats (p cp : Player) (bonusHp : Int) :
    (CombatDialog.combat_writeback p cp bonusHp).hp = max 1 (cp.hp - bonusHp) ∧
    (CombatDialog.combat_writeback p cp bonusHp).attack = p.attack ∧
    (CombatDialog.combat_writeback p cp bonusHp).defense = p.defense ∧
    (CombatDialog.combat_writeback p cp bonusHp).speed = p.speed ∧
    (CombatDialog.combat_writeback p cp bonusHp).luck = p.luck ∧
    (CombatDialog.combat_writeback p cp bonusHp).level = p.level ∧
    (CombatDialog.combat_writeback p cp bonusHp).xp = p.xp ∧
    (CombatDialog.combat_writeback p cp bonusHp).id = p.id ∧
    (CombatDialog.combat_writeback p cp bonusHp).name = p.name := by
  exact ⟨rfl, rfl, rfl, rfl, rfl, rfl, rfl, rfl, rfl⟩

/-- A lookup on which no item id resolves. -/
def emptyLookup : Nat → Option Item := fun _ => none

/-- C6: the missing-entity early returns are atomic — with no current
player, `sell_item`, `equip_item` and `unequip_item` perform no calls at
all and no display change; with a player but an unresolvable item id,
`sell_item` performs no mutating call, awards no XP and changes no
display. -/
theorem C6_missing_entity_early_return (lookup : Nat → Option Item)
    (item_id q : Nat) (p : Player) (hmiss : lookup item_id = none) :
    RecyclerDialog.sell_item none lookup item_id q = ⟨[], none, none, false⟩ ∧
    PlayerView.equip_item none item_id = ⟨[], false⟩ ∧
    PlayerView.unequip_item none item_id = ⟨[], false⟩ ∧
    (RecyclerDialog.sell_item (some p) lookup item_id q).calls.filter
      GameCall.isMutation = [] ∧
    (RecyclerDialog.sell_item (some p) lookup item_id q).xpAwarded = none ∧
    (RecyclerDialog.sell_item (some p) lookup item_id q).refreshed = false := by
  refine ⟨rfl, rfl, rfl, ?_, ?_, ?_⟩ <;>
    simp [RecyclerDialog.sell_item, hmiss, GameCall.isMutation]

/-- Witness for C6 on a lookup that resolves nothing. -/
theorem C6_missing_entity_early_return_witness :
    RecyclerDialog.sell_item none emptyLookup 3 2 = ⟨[], none, none, false⟩ ∧
    PlayerView.equip_item none 3 = ⟨[], false⟩ ∧
    PlayerView.unequip_item none 3 = ⟨[], false⟩ ∧
    (RecyclerDialog.sell_item (some samplePlayer) emptyLookup 3 2).calls.filter
      GameCall.isMutation = [] ∧
    (RecyclerDialog.sell_item (some samplePlayer) emptyLookup 3 2).xpAwarded = none ∧
    (RecyclerDialog.sell_item (some samplePlayer) emptyLookup 3 2).refreshed = false :=
  C6_missing_entity_early_return emptyLookup 3 2 samplePlayer rfl

/-- The stat keys tracked by the `equipped_bonuses` dict in
`PlayerView.refresh` and `CombatDialog.__init__`. -/
def recognizedStat (s : String) : Bool :=
  s == "hp" || s == "attack" || s == "defense" || s == "speed" || s == "luck"

/-- An inventory entry with the unrecognized stat keys dropped from its
item's bonus mapping. -/
def entryRecognized (e : InventoryEntry) : InventoryEntry :=
  (⟨e.1.id, e.1.name, e.1.rarity,
    e.1.stat_bonuses.filter (fun p => recognizedStat p.1)⟩, e.2.1, e.2.2)

/-- An inventory with every unrecognized bonus key dropped. -/
def filterRecognized (inv : Inventory) : Inventory :=
  inv.map entryRecognized

theorem statSumIn_cons (stat : String) (hd : String × Int) (tl : List (String × Int)) :
    statSumIn stat (hd :: tl) =
      (if (hd.1 == stat) = true then hd.2 else 0) + statSumIn stat tl := by
  by_cases h : (hd.1 == stat) = true <;> simp [statSumIn, List.filter_cons, h]

theorem statSumIn_filter_recognized (stat : String)
    (hstat : recognizedStat stat = true) (l : List (String × Int)) :
    statSumIn stat (l.filter fun p => recognizedStat p.1) = statSumIn stat l := by
  induction l with
  | nil => rfl
  | cons hd tl ih =>
    by_cases hr : recognizedStat hd.1 = true
    · have hcons : List.filter (fun p => recognizedStat p.1) (hd :: tl) =
          hd :: List.filter (fun p => recognizedStat p.1) tl := by
        simp [List.filter_cons, hr]
      rw [hcons, statSumIn_cons, statSumIn_cons, ih]
    · have hcons : List.filter (fun p => recognizedStat p.1) (hd :: tl) =
          List.filter (fun p => recognizedStat p.1) tl := by
        simp [List.filter_cons, hr]
      have hne : (hd.1 == stat) = false := by
        rcases Bool.eq_false_or_eq_true (hd.1 == stat) with h | h
        · exact absurd (show recognizedStat hd.1 = true by
            rw [beq_iff_eq.mp h]; exact hstat) hr
        · exact h
      rw [hcons, ih, statSumIn_cons, hne]
      simp

theorem specStatSum_cons (stat : String) (hd : InventoryEntry) (tl : Inventory) :
    specStatSum stat (hd :: tl) =
      (if hd.2.2 = true then statSumIn stat hd.1.stat_bonuses else 0) +
        specStatSum stat tl := by
  by_cases he : hd.2.2 = true <;> simp [specStatSum, List.filter_cons, he]

theorem specStatSum_filterRecognized (stat : String)
    (hstat : recognizedStat stat = true) (inv : Inventory) :
    specStatSum stat (filterRecognized inv) = specStatSum stat inv := by
  induction inv with
  | nil => rfl
  | cons hd tl ih =>
    simp only [filterRecognized, List.map_cons] at ih ⊢
    rw [specStatSum_cons, specStatSum_cons, ih]
    by_cases he : hd.2.2 = true <;>
      simp [entryRecognized, he, statSumIn_filter_recognized stat hstat]

/-- C10: bonuses whose stat key is not one of hp, attack, defense, speed,
luck are silently ignored when aggregating equipped-item bonuses — for
every player and inventory, dropping them changes neither the aggregated
bonuses, nor the stats `PlayerView.refresh` displays, nor the combat
player `CombatDialog.__init__` builds. -/
theorem C10_unrecognized_stats_ignored (p : Player) (inv : Inventory) :
    PlayerView.equipped_bonuses (filterRecognized inv) =
      PlayerView.equipped_bonuses inv ∧
    PlayerView.refresh_stats p (filterRecognized inv) =
      PlayerView.refresh_stats p inv ∧
    CombatDialog.combat_player_of p (filterRecognized inv) =
      CombatDialog.combat_player_of p inv := by
  have hb : PlayerView.equipped_bonuses (filterRecognized inv) =
      PlayerView.equipped_bonuses inv := by
    rw [PlayerView.equipped_bonuses_eq, PlayerView.equipped_bonuses_eq,
      specStatSum_filterRecognized "hp" (by decide),
      specStatSum_filterRecognized "attack" (by decide),
      specStatSum_filterRecognized "defense" (by decide),
      specStatSum_filterRecognized "speed" (by decide),
      specStatSum_filterRecognized "luck" (by decide)]
  exact ⟨hb, by simp [PlayerView.refresh_stats, hb],
    by simp [CombatDialog.combat_player_of, hb]⟩

/-- Counterexample to C4 as stated: one click of the recycler's Sell button
with a present player and a resolvable item issues four calls into
`game.logic` / `data.repositories`, not exactly one. -/
theorem C4_counterexample :
    (RecyclerDialog.sell_item (some samplePlayer) sampleLookup 7 2).calls.length = 4 ∧
    ¬(RecyclerDialog.sell_item (some samplePlayer) sampleLookup 7 2).calls.length = 1 := by
  constructor <;> decide

/-- C4 (amended): each click handler issues a fixed sequence of
rules-engine/repository calls before re-rendering — equip and unequip
exactly one repository call; Sell four calls (item read, inventory
removal, `award_xp`, player update); a combat action one `combat_turn`
call, followed when combat ends by the outcome handler and a player update
(plus the inventory-full check on loot-less victories), and by nothing
further on flee. -/
theorem C4_click_call_traces (p : Player) (lookup : Nat → Option Item)
    (item : Item) (item_id q : Nat) (action : String)
    (o : CombatDialog.TurnOutcome) (lootIsNone : Bool)
    (hlook : lookup item_id = some item) :
    (PlayerView.equip_item (some p) item_id).calls =
      [GameCall.equipItem p.id item_id] ∧
    (PlayerView.unequip_item (some p) item_id).calls =
      [GameCall.unequipItem p.id item_id] ∧
    (RecyclerDialog.sell_item (some p) lookup item_id q).calls =
      [GameCall.getById item_id,
       GameCall.removeFromInventory p.id item_id q,
       GameCall.awardXp p.id (RecyclerDialog.rarityXpValue item.rarity * q),
       GameCall.playerUpdate p.id] ∧
    (o.continues = true →
      CombatDialog.execute_action_calls p action o lootIsNone =
        [GameCall.combatTurn action]) ∧
    (o.continues = false → o.result = "fled" →
      CombatDialog.execute_action_calls p action o lootIsNone =
        [GameCall.combatTurn action]) ∧
    (o.continues = false → o.result = "victory" → lootIsNone = false →
      CombatDialog.execute_action_calls p action o lootIsNone =
        [GameCall.combatTurn action, GameCall.handleVictory,
         GameCall.playerUpdate p.id]) ∧
    (o.continues = false → o.result = "victory" → lootIsNone = true →
      CombatDialog.execute_action_calls p action o lootIsNone =
        [GameCall.combatTurn action, GameCall.handleVictory,
         GameCall.playerUpdate p.id, GameCall.getInventoryCount p.id,
         GameCall.calculateInventorySpace p.level]) ∧
    (o.continues = false → o.result = "defeat" →
      CombatDialog.execute_action_calls p action o lootIsNone =
        [GameCall.combatTurn action, GameCall.handleDefeat,
         GameCall.playerUpdate p.id]) := by
  refine ⟨rfl, rfl, ?_, ?_, ?_, ?_, ?_, ?_⟩
  · simp [RecyclerDialog.sell_item, hlook]
  · intro hc
    simp [CombatDialog.execute_action_calls, hc]
  · intro hc hr
    simp [CombatDialog.execute_action_calls, hc, hr]
  · intro hc hr hl
    subst hl
    simp [CombatDialog.execute_action_calls, hc, hr]
  · intro hc hr hl
    subst hl
    simp [CombatDialog.execute_action_calls, hc, hr]
  · intro hc hr
    simp [CombatDialog.execute_action_calls, hc, hr]

/-- Witness for C4 (amended): the concrete Sell click that the
counterexample inspects indeed issues exactly its four recorded calls. -/
theorem C4_click_call_traces_witness :
    (RecyclerDialog.sell_item (some samplePlayer) sampleLookup 7 2).calls =
      [GameCall.getById 7,
       GameCall.removeFromInventory samplePlayer.id 7 2,
       GameCall.awardXp samplePlayer.id
         (RecyclerDialog.rarityXpValue sampleItem.rarity * 2),
       GameCall.playerUpdate samplePlayer.id] :=
  (C4_click_call_traces samplePlayer sampleLookup sampleItem 7 2 "attack"
    ⟨"You attack the enemy!", true, ""⟩ false rfl).2.2.1
